import Mathlib

/-!
Verification of `include/linux/platform/tegra/mcerr.h` from the
tx2-deep-learning-kit-bsp tree.

The header declares register offsets, bit-field masks, error codes and a
chip-specific callback table for the Tegra memory-controller error-interrupt
handler.  We embed each preprocessor constant as a `Nat` definition with the
same arithmetic expression the C source writes, the two function-like macros
(`MC_ERR_SMMU_BITS`, `mcerr_pr`) as Lean functions, and the C structs as Lean
structures with field-for-field correspondence.  C `u32` is modelled as `Nat`
(with an explicit `< 2^32` bound where a claim quantifies over 32-bit values),
C `int` as `Int`, void-returning callbacks as functions into `Unit`, and
nullable pointers as `Option`.
-/

/-- C define: `#define MAX_PRINTS 5`. -/
def MAX_PRINTS : Nat := 5

/-- C define: `#define MC_INT_STATUS 0x0`. -/
def MC_INT_STATUS : Nat := 0x0

/-- C define: `#define MC_INT_MASK 0x4`. -/
def MC_INT_MASK : Nat := 0x4

/-- C define: `#define MC_ERR_BBC_STATUS 0x84`. -/
def MC_ERR_BBC_STATUS : Nat := 0x84

/-- C define: `#define MC_ERR_BBC_ADR 0x88`. -/
def MC_ERR_BBC_ADR : Nat := 0x88

/-- C define: `#define MC_ERR_SMMU_MASK (0x7 << 25)`. -/
def MC_ERR_SMMU_MASK : Nat := 0x7 <<< 25

/-- C define: `#define MC_ERR_SMMU_BITS(err) (((err) & MC_ERR_SMMU_MASK) >> 25)`. -/
def MC_ERR_SMMU_BITS (err : Nat) : Nat := (err &&& MC_ERR_SMMU_MASK) >>> 25

/-- C define: `#define MC_ERR_STATUS_WRITE (1 << 16)`. -/
def MC_ERR_STATUS_WRITE : Nat := 1 <<< 16

/-- C define: `#define MC_ERR_STATUS_SECURE (1 << 17)`. -/
def MC_ERR_STATUS_SECURE : Nat := 1 <<< 17

/-- C define: `#define MC_ERR_STATUS_ADR_HI (3 << 20)`. -/
def MC_ERR_STATUS_ADR_HI : Nat := 3 <<< 20

/-- C define: `#define MC_INT_DECERR_EMEM (1<<6)`. -/
def MC_INT_DECERR_EMEM : Nat := 1 <<< 6

/-- C define: `#define MC_INT_SECURITY_VIOLATION (1<<8)`. -/
def MC_INT_SECURITY_VIOLATION : Nat := 1 <<< 8

/-- C define: `#define MC_INT_ARBITRATION_EMEM (1<<9)`. -/
def MC_INT_ARBITRATION_EMEM : Nat := 1 <<< 9

/-- C define: `#define MC_INT_INVALID_SMMU_PAGE (1<<10)`. -/
def MC_INT_INVALID_SMMU_PAGE : Nat := 1 <<< 10

/-- C define: `#define MC_INT_INVALID_APB_ASID_UPDATE (1<<11)`. -/
def MC_INT_INVALID_APB_ASID_UPDATE : Nat := 1 <<< 11

/-- C define: `#define MC_INT_DECERR_VPR (1<<12)`. -/
def MC_INT_DECERR_VPR : Nat := 1 <<< 12

/-- C define: `#define MC_INT_SECERR_SEC (1<<13)`. -/
def MC_INT_SECERR_SEC : Nat := 1 <<< 13

/-- C define: `#define MC_INT_BBC_PRIVATE_MEM_VIOLATION (1<<14)`. -/
def MC_INT_BBC_PRIVATE_MEM_VIOLATION : Nat := 1 <<< 14

/-- C define: `#define MC_INT_DECERR_BBC (1<<15)`. -/
def MC_INT_DECERR_BBC : Nat := 1 <<< 15

/-- C define: `#define MC_INT_DECERR_MTS (1<<16)`. -/
def MC_INT_DECERR_MTS : Nat := 1 <<< 16

/-- C define: `#define MC_INT_DECERR_GENERALIZED_CARVEOUT (1<<17)`. -/
def MC_INT_DECERR_GENERALIZED_CARVEOUT : Nat := 1 <<< 17

/-- C define: `#define MC_INT_WCAM_ERR (1<<19)`. -/
def MC_INT_WCAM_ERR : Nat := 1 <<< 19

/-- C define: `#define MC_HUBC_INT_SCRUB_ECC_WR_ACK (1 << 0)`. -/
def MC_HUBC_INT_SCRUB_ECC_WR_ACK : Nat := 1 <<< 0

/-- C define: `#define MC_ERR_DECERR_EMEM (2)`. -/
def MC_ERR_DECERR_EMEM : Nat := 2

/-- C define: `#define MC_ERR_SECURITY_TRUSTZONE (3)`. -/
def MC_ERR_SECURITY_TRUSTZONE : Nat := 3

/-- C define: `#define MC_ERR_SECURITY_CARVEOUT (4)`. -/
def MC_ERR_SECURITY_CARVEOUT : Nat := 4

/-- C define: `#define MC_ERR_INVALID_SMMU_PAGE (6)`. -/
def MC_ERR_INVALID_SMMU_PAGE : Nat := 6

/-- C define: `#define E_SMMU (1<<0)`. -/
def E_SMMU : Nat := 1 <<< 0

/-- C define: `#define E_NO_STATUS (1<<1)`. -/
def E_NO_STATUS : Nat := 1 <<< 1

/-- C define: `#define E_TWO_STATUS (1<<2)`. -/
def E_TWO_STATUS : Nat := 1 <<< 2

/-- C define: `#define MMA_HISTORY_SAMPLES 20`. -/
def MMA_HISTORY_SAMPLES : Nat := 20

/-- C struct `mc_error`: one entry per error the MC can generate, with the
fields `msg`, `sig`, `flags`, `stat_reg` and `addr_reg` exactly as in the
header (lines 83-89). -/
structure mc_error where
  msg : String
  sig : Nat
  flags : Int
  stat_reg : Nat
  addr_reg : Nat
deriving DecidableEq

/-- C struct `mc_client`, as constructed by the header's `client(...)` macro
(line 167): fields `swgroup`, `name` and `swgid`. -/
structure mc_client where
  swgroup : String
  name : String
  swgid : Int

/-- C macro `client(_swgroup, _name, _swgid)` (header lines 167-168): builds
an `mc_client` record from its three arguments.  The C text pastes the token
`TEGRA_SWGROUP_##_swgid`, a constant supplied by `mc.h` outside this tree, so
the resolved swgid value is passed explicitly. -/
def client (swgroup nm : String) (swgid : Int) : mc_client :=
  { swgroup := swgroup, name := nm, swgid := swgid }

/-- C define `dummy_client` (header line 170): `client("dummy", "dummy",
INVALID)`.  The numeric value of `TEGRA_SWGROUP_INVALID` comes from `mc.h`,
which is outside this tree, so it is a parameter; everything else is fixed by
the header. -/
def dummy_client (TEGRA_SWGROUP_INVALID : Int) : mc_client :=
  client "dummy" "dummy" TEGRA_SWGROUP_INVALID

/-- C macro `MC_ERR(_sig, _msg, _flags, _stat_reg, _addr_reg)` (header lines
172-174): builds an `mc_error` record from its five arguments. -/
def MC_ERR (sig : Nat) (msg : String) (flags : Int)
    (stat_reg addr_reg : Nat) : mc_error :=
  { sig := sig, msg := msg, flags := flags,
    stat_reg := stat_reg, addr_reg := addr_reg }

/-- Placeholder for the kernel's `struct seq_file`, which the header only
references through a pointer in a callback signature. -/
structure seq_file where
  mk ::

/-- C struct `mcerr_chip_specific` (header lines 98-165): the chip-specific
callback table.  Seven function-pointer callbacks, the numeric field
`nr_clients`, and the `intr_descriptions` array (an array of nullable
strings, modelled as `List (Option String)`).  Void-returning callbacks
become functions into `Unit`; nullable pointer arguments become `Option`. -/
structure mcerr_chip_specific where
  mcerr_info : Nat → Option mc_error
  mcerr_print : Option mc_error → Option mc_client → Nat → Nat → Int → Int →
    Option String → Unit
  mcerr_debugfs_show : seq_file → Unit → Int
  disable_interrupt : Nat → Unit
  enable_interrupt : Nat → Unit
  clear_interrupt : Nat → Unit
  log_mcerr_fault : Nat → Unit
  nr_clients : Nat
  intr_descriptions : List (Option String)

/-- C struct `arb_emem_intr_info` (header lines 188-192); the spinlock is a
kernel-opaque field, modelled as `Unit`. -/
structure arb_emem_intr_info where
  arb_intr_mma : Int
  time : Nat
  lock : Unit

/-- Output events that the `mcerr_pr` macro can emit, in order. -/
inductive log_event where
  | trace_printk (fmt : String) : log_event
  | pr_err (fmt : String) : log_event
deriving DecidableEq

/-- C macro `mcerr_pr(fmt, ...)` (header lines 176-182): if the extern
`mcerr_silenced` is zero (C `!mcerr_silenced`), emit via `trace_printk` and
then `pr_err`; otherwise do nothing.  The extern is passed explicitly and the
emitted output is returned as the list of events, in emission order. -/
def mcerr_pr (mcerr_silenced : Nat) (fmt : String) : List log_event :=
  if mcerr_silenced = 0 then
    [log_event.trace_printk fmt, log_event.pr_err fmt]
  else
    []

/-- The symbols the header declares `extern` only (lines 95-96 and 198-200):
`mc_client_last`, `mc_int_mask`, `mc_clients`, `mcerr_chip_specific_setup`
and `mcerr_silenced`.  The header gives them no storage and no body, so an
environment is any assignment of values to them; `mcerr_chip_specific_setup`
takes a callback table by pointer and fills it in, modelled as a function
returning the updated table. -/
structure chip_supplied where
  mc_client_last : Int
  mc_int_mask : Nat
  mc_clients : List mc_client
  mcerr_chip_specific_setup : mcerr_chip_specific → mcerr_chip_specific
  mcerr_silenced : Nat

/-- A concrete `mc_error`, used only to witness structural theorems. -/
def sample_error : mc_error :=
  { msg := "EMEM decode error", sig := MC_INT_DECERR_EMEM, flags := 0,
    stat_reg := MC_ERR_BBC_STATUS, addr_reg := MC_ERR_BBC_ADR }

/-- A concrete `mcerr_chip_specific`, used only to witness structural
theorems. -/
def sample_chip : mcerr_chip_specific :=
  { mcerr_info := fun _ => some sample_error,
    mcerr_print := fun _ _ _ _ _ _ _ => (),
    mcerr_debugfs_show := fun _ _ => 0,
    disable_interrupt := fun _ => (),
    enable_interrupt := fun _ => (),
    clear_interrupt := fun _ => (),
    log_mcerr_fault := fun _ => (),
    nr_clients := 0,
    intr_descriptions := [] }

/-- Helper list of the twelve `MC_INT_*` interrupt-status masks, in header
order (lines 48-59). -/
def mc_int_masks : List Nat :=
  [MC_INT_DECERR_EMEM, MC_INT_SECURITY_VIOLATION, MC_INT_ARBITRATION_EMEM,
   MC_INT_INVALID_SMMU_PAGE, MC_INT_INVALID_APB_ASID_UPDATE, MC_INT_DECERR_VPR,
   MC_INT_SECERR_SEC, MC_INT_BBC_PRIVATE_MEM_VIOLATION, MC_INT_DECERR_BBC,
   MC_INT_DECERR_MTS, MC_INT_DECERR_GENERALIZED_CARVEOUT, MC_INT_WCAM_ERR]

/-- Helper lemma: `MC_ERR_SMMU_BITS` extracts the three-bit field at
positions 25..27, i.e. equals `(err >>> 25) % 8`, for every natural `err`
(the mask discards all other bits, so no 32-bit bound is needed). -/
theorem smmu_bits_eq_mod (err : Nat) :
    MC_ERR_SMMU_BITS err = (err >>> 25) % 8 := by
  show (err &&& MC_ERR_SMMU_MASK) >>> 25 = (err >>> 25) % 2 ^ 3
  have hmask : MC_ERR_SMMU_MASK = (2 ^ 3 - 1) <<< 25 := rfl
  rw [hmask]
  apply Nat.eq_of_testBit_eq
  intro i
  simp only [Nat.testBit_shiftRight, Nat.testBit_and, Nat.testBit_mod_two_pow,
    Nat.testBit_shiftLeft, Nat.testBit_two_pow_sub_one,
    Nat.add_sub_cancel_left]
  simp [Nat.le_add_right, Bool.and_comm]

/-- C1 (counterexample): the claim that every definition embedded as a
function is a constant with no branching and no computation is false:
`MC_ERR_SMMU_BITS` computes a different value on `0x0E000000` than on `0`,
and `mcerr_pr` branches on `mcerr_silenced`, producing different output for
`mcerr_silenced = 0` and `mcerr_silenced = 1`. -/
theorem C1_cex_functions_not_constant :
    MC_ERR_SMMU_BITS 0x0E000000 ≠ MC_ERR_SMMU_BITS 0 ∧
    mcerr_pr 0 "e" ≠ mcerr_pr 1 "e" := by
  decide

/-- C1 (amended): every object-like definition in the header is a pure
constant — each numeric macro (including all twelve `MC_INT_*` masks) equals
its literal value, and `dummy_client` is the fixed record with `swgroup` and
`name` both `"dummy"` (its `swgid` being whatever `mc.h` supplies for
`TEGRA_SWGROUP_INVALID`); the structs and externs are declarations only —
every assignment of field values is realised by some `mc_error`, some
`mcerr_chip_specific` and some extern environment, so the header constrains
none of them; the record-building macros `client` and `MC_ERR` merely
package their arguments; but the two computation-bearing function-like
macros are not constants: `MC_ERR_SMMU_BITS` computes the three-bit field
`(err >>> 25) % 8` and so takes different values on different inputs, and
`mcerr_pr` branches on `mcerr_silenced`, emitting `trace_printk` then
`pr_err` exactly when it is zero and nothing otherwise. -/
theorem C1_header_declarative :
    (MAX_PRINTS = 5 ∧ MC_INT_STATUS = 0x0 ∧ MC_INT_MASK = 0x4 ∧
     MC_ERR_BBC_STATUS = 0x84 ∧ MC_ERR_BBC_ADR = 0x88 ∧
     MC_ERR_SMMU_MASK = 0x0E000000 ∧ MC_ERR_STATUS_WRITE = 0x10000 ∧
     MC_ERR_STATUS_SECURE = 0x20000 ∧ MC_ERR_STATUS_ADR_HI = 0x300000 ∧
     MC_INT_DECERR_EMEM = 0x40 ∧ MC_INT_SECURITY_VIOLATION = 0x100 ∧
     MC_INT_ARBITRATION_EMEM = 0x200 ∧ MC_INT_INVALID_SMMU_PAGE = 0x400 ∧
     MC_INT_INVALID_APB_ASID_UPDATE = 0x800 ∧ MC_INT_DECERR_VPR = 0x1000 ∧
     MC_INT_SECERR_SEC = 0x2000 ∧
     MC_INT_BBC_PRIVATE_MEM_VIOLATION = 0x4000 ∧
     MC_INT_DECERR_BBC = 0x8000 ∧ MC_INT_DECERR_MTS = 0x10000 ∧
     MC_INT_DECERR_GENERALIZED_CARVEOUT = 0x20000 ∧
     MC_INT_WCAM_ERR = 0x80000 ∧
     MC_HUBC_INT_SCRUB_ECC_WR_ACK = 1 ∧
     MC_ERR_DECERR_EMEM = 2 ∧ MC_ERR_SECURITY_TRUSTZONE = 3 ∧
     MC_ERR_SECURITY_CARVEOUT = 4 ∧ MC_ERR_INVALID_SMMU_PAGE = 6 ∧
     E_SMMU = 1 ∧ E_NO_STATUS = 2 ∧ E_TWO_STATUS = 4 ∧
     MMA_HISTORY_SAMPLES = 20) ∧
    (∀ g : Int, dummy_client g = { swgroup := "dummy", name := "dummy",
                                   swgid := g }) ∧
    (∀ (sw nm : String) (g : Int), client sw nm g = { swgroup := sw,
                                                      name := nm,
                                                      swgid := g }) ∧
    (∀ (sig : Nat) (msg : String) (flags : Int) (st ad : Nat),
      MC_ERR sig msg flags st ad = { msg := msg, sig := sig, flags := flags,
                                     stat_reg := st, addr_reg := ad }) ∧
    (∀ err : Nat, MC_ERR_SMMU_BITS err = (err >>> 25) % 8) ∧
    (∃ x y : Nat, MC_ERR_SMMU_BITS x ≠ MC_ERR_SMMU_BITS y) ∧
    (∀ (s : Nat) (fmt : String), mcerr_pr s fmt =
      if s = 0 then [log_event.trace_printk fmt, log_event.pr_err fmt]
      else []) ∧
    (∃ s t : Nat, ∃ fmt : String, mcerr_pr s fmt ≠ mcerr_pr t fmt) ∧
    (∀ (m : String) (sg : Nat) (f : Int) (st ad : Nat), ∃ e : mc_error,
      e.msg = m ∧ e.sig = sg ∧ e.flags = f ∧ e.stat_reg = st ∧
      e.addr_reg = ad) ∧
    (∀ (info : Nat → Option mc_error)
       (pr : Option mc_error → Option mc_client → Nat → Nat → Int → Int →
         Option String → Unit)
       (dbg : seq_file → Unit → Int) (dis en cl lg : Nat → Unit)
       (n : Nat) (descr : List (Option String)),
      ∃ c : mcerr_chip_specific,
        c.mcerr_info = info ∧ c.mcerr_print = pr ∧
        c.mcerr_debugfs_show = dbg ∧ c.disable_interrupt = dis ∧
        c.enable_interrupt = en ∧ c.clear_interrupt = cl ∧
        c.log_mcerr_fault = lg ∧ c.nr_clients = n ∧
        c.intr_descriptions = descr) ∧
    (∀ (last : Int) (mask : Nat) (clients : List mc_client)
       (setup : mcerr_chip_specific → mcerr_chip_specific) (silenced : Nat),
      ∃ env : chip_supplied,
        env.mc_client_last = last ∧ env.mc_int_mask = mask ∧
        env.mc_clients = clients ∧ env.mcerr_chip_specific_setup = setup ∧
        env.mcerr_silenced = silenced) := by
  refine ⟨by decide, fun g => rfl, fun sw nm g => rfl,
    fun sig msg flags st ad => rfl,
    smmu_bits_eq_mod, ⟨0x0E000000, 0, by decide⟩,
    fun s fmt => rfl, ⟨0, 1, "e", by decide⟩,
    fun m sg f st ad => ⟨⟨m, sg, f, st, ad⟩, rfl, rfl, rfl, rfl, rfl⟩,
    fun info pr dbg dis en cl lg n descr =>
      ⟨⟨info, pr, dbg, dis, en, cl, lg, n, descr⟩,
       rfl, rfl, rfl, rfl, rfl, rfl, rfl, rfl, rfl⟩,
    fun last mask clients setup silenced =>
      ⟨⟨last, mask, clients, setup, silenced⟩, rfl, rfl, rfl, rfl, rfl⟩⟩

/-- C2: for every 32-bit value `err`, `MC_ERR_SMMU_BITS err` equals
`(err >>> 25) % 8` (the three-bit field at positions 25..27), hence its
result is at most 7. -/
theorem C2_smmu_bits_field (err : Nat) (h : err < 2 ^ 32) :
    MC_ERR_SMMU_BITS err = (err >>> 25) % 8 ∧ MC_ERR_SMMU_BITS err ≤ 7 := by
  refine ⟨smmu_bits_eq_mod err, ?_⟩
  rw [smmu_bits_eq_mod err]
  have h2 : (err >>> 25) % 8 < 8 := Nat.mod_lt _ (by decide)
  omega

/-- Witness for C2 at the concrete input `err = 0x0E000000` (all three SMMU
bits set), where the field value is 7. -/
theorem C2_smmu_bits_field_witness :
    (0x0E000000 : Nat) < 2 ^ 32 ∧
    (MC_ERR_SMMU_BITS 0x0E000000 = ((0x0E000000 : Nat) >>> 25) % 8 ∧
     MC_ERR_SMMU_BITS 0x0E000000 ≤ 7) :=
  ⟨by decide, C2_smmu_bits_field 0x0E000000 (by decide)⟩

/-- C3: the bit-field masks have exactly the stated values —
`MC_ERR_SMMU_MASK = 0x7 << 25 = 0x0E000000`, `MC_ERR_STATUS_WRITE = 0x10000`
(bit 16), `MC_ERR_STATUS_SECURE = 0x20000` (bit 17) and
`MC_ERR_STATUS_ADR_HI = 0x300000` (bits 20-21) — and `MC_ERR_STATUS_WRITE`
and `MC_ERR_STATUS_SECURE` are disjoint from each other and from the other
two masks. -/
theorem C3_mask_values :
    MC_ERR_SMMU_MASK = 0x7 <<< 25 ∧ MC_ERR_SMMU_MASK = 0x0E000000 ∧
    MC_ERR_STATUS_WRITE = 0x10000 ∧ MC_ERR_STATUS_WRITE = 2 ^ 16 ∧
    MC_ERR_STATUS_SECURE = 0x20000 ∧ MC_ERR_STATUS_SECURE = 2 ^ 17 ∧
    MC_ERR_STATUS_ADR_HI = 0x300000 ∧ MC_ERR_STATUS_ADR_HI = 3 * 2 ^ 20 ∧
    MC_ERR_STATUS_WRITE &&& MC_ERR_STATUS_SECURE = 0 ∧
    MC_ERR_STATUS_WRITE &&& MC_ERR_SMMU_MASK = 0 ∧
    MC_ERR_STATUS_WRITE &&& MC_ERR_STATUS_ADR_HI = 0 ∧
    MC_ERR_STATUS_SECURE &&& MC_ERR_SMMU_MASK = 0 ∧
    MC_ERR_STATUS_SECURE &&& MC_ERR_STATUS_ADR_HI = 0 := by
  decide

/-- C4: the error codes are `MC_ERR_DECERR_EMEM = 2`,
`MC_ERR_SECURITY_TRUSTZONE = 3`, `MC_ERR_SECURITY_CARVEOUT = 4` and
`MC_ERR_INVALID_SMMU_PAGE = 6`, pairwise distinct. -/
theorem C4_error_codes :
    MC_ERR_DECERR_EMEM = 2 ∧ MC_ERR_SECURITY_TRUSTZONE = 3 ∧
    MC_ERR_SECURITY_CARVEOUT = 4 ∧ MC_ERR_INVALID_SMMU_PAGE = 6 ∧
    MC_ERR_DECERR_EMEM ≠ MC_ERR_SECURITY_TRUSTZONE ∧
    MC_ERR_DECERR_EMEM ≠ MC_ERR_SECURITY_CARVEOUT ∧
    MC_ERR_DECERR_EMEM ≠ MC_ERR_INVALID_SMMU_PAGE ∧
    MC_ERR_SECURITY_TRUSTZONE ≠ MC_ERR_SECURITY_CARVEOUT ∧
    MC_ERR_SECURITY_TRUSTZONE ≠ MC_ERR_INVALID_SMMU_PAGE ∧
    MC_ERR_SECURITY_CARVEOUT ≠ MC_ERR_INVALID_SMMU_PAGE := by
  decide

/-- C5: the legacy register offsets are `MC_INT_STATUS = 0x0`,
`MC_INT_MASK = 0x4`, `MC_ERR_BBC_STATUS = 0x84` and `MC_ERR_BBC_ADR = 0x88`,
pairwise distinct and each a multiple of 4. -/
theorem C5_register_offsets :
    MC_INT_STATUS = 0x0 ∧ MC_INT_MASK = 0x4 ∧
    MC_ERR_BBC_STATUS = 0x84 ∧ MC_ERR_BBC_ADR = 0x88 ∧
    MC_INT_STATUS ≠ MC_INT_MASK ∧ MC_INT_STATUS ≠ MC_ERR_BBC_STATUS ∧
    MC_INT_STATUS ≠ MC_ERR_BBC_ADR ∧ MC_INT_MASK ≠ MC_ERR_BBC_STATUS ∧
    MC_INT_MASK ≠ MC_ERR_BBC_ADR ∧ MC_ERR_BBC_STATUS ≠ MC_ERR_BBC_ADR ∧
    MC_INT_STATUS % 4 = 0 ∧ MC_INT_MASK % 4 = 0 ∧
    MC_ERR_BBC_STATUS % 4 = 0 ∧ MC_ERR_BBC_ADR % 4 = 0 := by
  decide

/-- C6: `mcerr_chip_specific` is determined by exactly its seven callbacks
plus `nr_clients` and `intr_descriptions` (two tables agreeing on those nine
fields are equal), and whenever its `mcerr_info` callback returns a
(non-null) `mc_error`, that record is exactly its five fields `msg`, `sig`,
`flags`, `stat_reg` and `addr_reg`. -/
theorem C6_chip_specific_shape :
    (∀ a b : mcerr_chip_specific,
      a.mcerr_info = b.mcerr_info → a.mcerr_print = b.mcerr_print →
      a.mcerr_debugfs_show = b.mcerr_debugfs_show →
      a.disable_interrupt = b.disable_interrupt →
      a.enable_interrupt = b.enable_interrupt →
      a.clear_interrupt = b.clear_interrupt →
      a.log_mcerr_fault = b.log_mcerr_fault →
      a.nr_clients = b.nr_clients →
      a.intr_descriptions = b.intr_descriptions → a = b) ∧
    (∀ (s : mcerr_chip_specific) (intr : Nat) (e : mc_error),
      s.mcerr_info intr = some e →
      e = { msg := e.msg, sig := e.sig, flags := e.flags,
            stat_reg := e.stat_reg, addr_reg := e.addr_reg }) := by
  constructor
  · intro a b h1 h2 h3 h4 h5 h6 h7 h8 h9
    cases a
    cases b
    simp_all
  · intro s intr e _
    rfl

/-- Witness for C6 at a concrete callback table and error record. -/
theorem C6_chip_specific_shape_witness :
    sample_chip = sample_chip ∧
    sample_error = { msg := sample_error.msg, sig := sample_error.sig,
                     flags := sample_error.flags,
                     stat_reg := sample_error.stat_reg,
                     addr_reg := sample_error.addr_reg } :=
  ⟨C6_chip_specific_shape.1 sample_chip sample_chip rfl rfl rfl rfl rfl rfl
      rfl rfl rfl,
   C6_chip_specific_shape.2 sample_chip 0 sample_error rfl⟩

/-- C7: each of the twelve `MC_INT_*` interrupt-status masks is a power of
two at a bit position between 6 and 19 (so each fits a 32-bit word), the
twelve are pairwise distinct and pairwise disjoint as bit sets. -/
theorem C7_int_masks_invariant :
    MC_INT_DECERR_EMEM = 2 ^ 6 ∧ MC_INT_SECURITY_VIOLATION = 2 ^ 8 ∧
    MC_INT_ARBITRATION_EMEM = 2 ^ 9 ∧ MC_INT_INVALID_SMMU_PAGE = 2 ^ 10 ∧
    MC_INT_INVALID_APB_ASID_UPDATE = 2 ^ 11 ∧ MC_INT_DECERR_VPR = 2 ^ 12 ∧
    MC_INT_SECERR_SEC = 2 ^ 13 ∧ MC_INT_BBC_PRIVATE_MEM_VIOLATION = 2 ^ 14 ∧
    MC_INT_DECERR_BBC = 2 ^ 15 ∧ MC_INT_DECERR_MTS = 2 ^ 16 ∧
    MC_INT_DECERR_GENERALIZED_CARVEOUT = 2 ^ 17 ∧ MC_INT_WCAM_ERR = 2 ^ 19 ∧
    mc_int_masks.Pairwise (· ≠ ·) ∧
    mc_int_masks.Pairwise (fun a b => a &&& b = 0) ∧
    mc_int_masks.all (fun m => 2 ^ 6 ≤ m && m ≤ 2 ^ 19 && m < 2 ^ 32) = true := by
  decide

/-- C8: an invocation of `mcerr_pr` emits output — `trace_printk` then
`pr_err`, in that order — exactly when `mcerr_silenced` is zero; when
`mcerr_silenced` is nonzero it emits nothing. -/
theorem C8_mcerr_pr_silencing (mcerr_silenced : Nat) (fmt : String) :
    (mcerr_pr mcerr_silenced fmt =
        [log_event.trace_printk fmt, log_event.pr_err fmt] ↔
      mcerr_silenced = 0) ∧
    (mcerr_silenced ≠ 0 → mcerr_pr mcerr_silenced fmt = []) := by
  unfold mcerr_pr
  by_cases h : mcerr_silenced = 0 <;> simp [h]

/-- Witness for C8 at the concrete silenced value 1, where nothing is
emitted. -/
theorem C8_mcerr_pr_silencing_witness :
    (mcerr_pr 1 "mc fault" =
        [log_event.trace_printk "mc fault", log_event.pr_err "mc fault"] ↔
      (1 : Nat) = 0) ∧
    mcerr_pr 1 "mc fault" = [] :=
  ⟨(C8_mcerr_pr_silencing 1 "mc fault").1,
   (C8_mcerr_pr_silencing 1 "mc fault").2 (by decide)⟩

/-- C9: the header constrains none of the extern symbols `mc_client_last`,
`mc_int_mask`, `mc_clients`, `mcerr_chip_specific_setup` and
`mcerr_silenced`: every assignment of values to them is realised by some
externally supplied environment. -/
theorem C9_externs_unconstrained (last : Int) (mask : Nat)
    (clients : List mc_client)
    (setup : mcerr_chip_specific → mcerr_chip_specific) (silenced : Nat) :
    ∃ env : chip_supplied,
      env.mc_client_last = last ∧ env.mc_int_mask = mask ∧
      env.mc_clients = clients ∧
      env.mcerr_chip_specific_setup = setup ∧
      env.mcerr_silenced = silenced :=
  ⟨⟨last, mask, clients, setup, silenced⟩, rfl, rfl, rfl, rfl, rfl⟩
